import Mathlib

/-!
Verification of the Document-Analysis repository core against its
natural-language specification.

The ingestion pipeline (app/api/ingest/route.ts together with
lib/text/sanitize.ts, lib/safety/redact.ts, lib/llm/schemaDiscovery.ts and
lib/vector/embed.ts) and the conversation orchestrator (app/api/chat/route.ts)
are shallowly embedded below. Text is modelled as a list of characters
(one entry per UTF-16-ish code point of the JavaScript string); database
writes are collected into explicit lists; every external service call
(text extraction, completion service, embedding service, row insert) is an
oracle supplied through an environment record, so the theorems quantify over
every behaviour the external collaborators may exhibit. JSON values are an
inductive; the numeric leaf is an integer stand-in, since no verified claim
inspects numeric payloads.
-/

namespace DocAnalysis

/-- A JavaScript string, one list entry per character. -/
abbrev Str := List Char

/-! ## Sanitizer (lib/text/sanitize.ts, sanitizeForPostgresText)

The source applies two global single-character-class replacements by the
empty string, which on a string amounts to two filters applied in order:
first every NUL is removed, then every character of the class
[\u0001-\u0008\u000B\u000C\u000E-\u001F]. -/

/-- The character class of the second replacement in sanitizeForPostgresText:
C0 control characters other than NUL, tab, line feed and carriage return. -/
def isStrippedControl (c : Char) : Bool :=
  decide ((1 ≤ c.toNat ∧ c.toNat ≤ 8) ∨ c.toNat = 11 ∨ c.toNat = 12 ∨
    (14 ≤ c.toNat ∧ c.toNat ≤ 31))

/-- lib/text/sanitize.ts: remove NULs, then remove the other stripped
control characters, keeping tab, line feed and carriage return. -/
def sanitizeForPostgresText (s : Str) : Str :=
  (s.filter (fun c => !decide (c.toNat = 0))).filter (fun c => !isStrippedControl c)

/-- A Unicode control character (category Cc): the C0 range, DEL and the
C1 range. Used to state the specification claim about sanitization. -/
def isControlChar (c : Char) : Bool :=
  decide (c.toNat < 32 ∨ (127 ≤ c.toNat ∧ c.toNat ≤ 159))

/-! ## JavaScript trim (used by app/api/ingest/route.ts step 6)

`String.prototype.trim` removes leading and trailing JavaScript white space:
the ECMAScript WhiteSpace and LineTerminator code points. -/

/-- The ECMAScript white-space code points recognised by String.prototype.trim. -/
def jsWhitespace (c : Char) : Bool :=
  ([9, 10, 11, 12, 13, 32, 160, 0x1680, 0x2000, 0x2001, 0x2002, 0x2003, 0x2004,
    0x2005, 0x2006, 0x2007, 0x2008, 0x2009, 0x200A, 0x2028, 0x2029, 0x202F,
    0x205F, 0x3000, 0xFEFF] : List Nat).contains c.toNat

/-- JavaScript String.prototype.trim. -/
def jsTrim (s : Str) : Str :=
  (((s.dropWhile jsWhitespace).reverse).dropWhile jsWhitespace).reverse

/-! ## Redactor (lib/safety/redact.ts, redactPII)

Two global regex replacements: /\b\d{3}-\d{2}-\d{4}\b/g by "[REDACTED_SSN]"
and /\b\d{16}\b/g by "[REDACTED_CARD]". Both patterns start and end with a
digit, so the word-boundary assertions amount to: the previous character (if
any) is not a word character, and the character after the match (if any) is
not a word character. The scanner below walks the string left to right,
attempts a match wherever word-ness changes (the regex \b positions), and on
success emits the placeholder and resumes after the match, exactly as a
global regex replace does. -/

/-- JavaScript \d. -/
def isDigitChar (c : Char) : Bool := decide (48 ≤ c.toNat ∧ c.toNat ≤ 57)

/-- JavaScript \w: ASCII letters, digits and underscore. -/
def isWordChar (c : Char) : Bool := c.isAlphanum || c = '_'

/-- Consume exactly n digits, returning the rest of the string. -/
def takeDigits : Nat → Str → Option Str
  | 0, s => some s
  | _ + 1, [] => none
  | n + 1, c :: cs => if isDigitChar c then takeDigits n cs else none

/-- Consume one expected character. -/
def expectChar (c : Char) : Str → Option Str
  | [] => none
  | d :: ds => if d = c then some ds else none

/-- The trailing word-boundary assertion after a match ending in a digit:
the rest must be empty or start with a non-word character. -/
def tailBoundary (s : Str) : Option Str :=
  match s with
  | [] => some []
  | c :: _ => if isWordChar c then none else some s

/-- Match \d{3}-\d{2}-\d{4}\b at the head of the string. -/
def matchSSNAt (s : Str) : Option Str :=
  (takeDigits 3 s).bind fun s1 =>
  (expectChar '-' s1).bind fun s2 =>
  (takeDigits 2 s2).bind fun s3 =>
  (expectChar '-' s3).bind fun s4 =>
  (takeDigits 4 s4).bind tailBoundary

/-- Match \d{16}\b at the head of the string. -/
def matchCardAt (s : Str) : Option Str :=
  (takeDigits 16 s).bind tailBoundary

/-- Global regex replace for a pattern that begins and ends with a digit.
`prevWord` records whether the previous character of the original string is
a word character; a match is attempted exactly where \b holds. Both matched
patterns end in a digit, so scanning resumes with `prevWord = true`. Fuel
decreases every step and starts above the string length. -/
def replaceScan (matchAt : Str → Option Str) (placeholder : Str) :
    Nat → Bool → Str → Str
  | 0, _, s => s
  | _ + 1, _, [] => []
  | fuel + 1, prevWord, c :: cs =>
    if prevWord ≠ isWordChar c then
      match matchAt (c :: cs) with
      | some rest => placeholder ++ replaceScan matchAt placeholder fuel true rest
      | none => c :: replaceScan matchAt placeholder fuel (isWordChar c) cs
    else
      c :: replaceScan matchAt placeholder fuel (isWordChar c) cs

/-- lib/safety/redact.ts: SSN-shaped substrings then 16-digit runs are
replaced with fixed placeholder tokens. -/
def redactPII (s : Str) : Str :=
  let afterSSN :=
    replaceScan matchSSNAt ("[REDACTED_SSN]".data) (s.length + 1) false s
  replaceScan matchCardAt ("[REDACTED_CARD]".data) (afterSSN.length + 1) false afterSSN

/-! ## JSON values

Field names are Lean strings; a numeric leaf is an integer stand-in (no
verified claim inspects numbers). `lookupKey` models JavaScript property
access combined with the `in` test: on objects it is own-property lookup, on
arrays it resolves canonical numeric indices and "length", on anything else
it yields undefined (`none`). -/

inductive JVal where
  | null
  | bool (b : Bool)
  | num (n : Int)
  | str (s : Str)
  | arr (xs : List JVal)
  | obj (fields : List (String × JVal))

/-- Property lookup on an array: canonical numeric indices and "length". -/
def arrMember (xs : List JVal) (k : String) : Option JVal :=
  if k = "length" then some (.num xs.length)
  else
    match k.toNat? with
    | some i => if toString i = k then xs.get? i else none
    | none => none

/-- Total key lookup on a JSON value: own fields of objects, canonical
numeric indices and "length" of arrays, nothing on the leaves. Used by
`JVal.getProp` for non-null receivers and by statement-side predicates. -/
def JVal.lookupKey : JVal → String → Option JVal
  | .obj fields, k => fields.lookup k
  | .arr xs, k => arrMember xs k
  | _, _ => none

/-- The one receiver JSON.parse can produce on which property access
throws. -/
def JVal.isNull : JVal → Bool
  | .null => true
  | _ => false

/-- JavaScript property access `v.k` as the routes perform it: a TypeError
on a null receiver; otherwise own-property lookup on objects (the keys the
routes read are not prototype-chain properties; prototype-chain hits such
as "toString" are outside this model), canonical indices and "length" on
arrays, and undefined on the primitive leaves, which box without carrying
the asked-for property. -/
def JVal.getProp : JVal → String → Except String (Option JVal)
  | .null, k => .error ("Cannot read properties of null (reading " ++ k ++ ")")
  | v, k => .ok (v.lookupKey k)

/-- JavaScript truthiness of a JSON value. -/
def JVal.truthy : JVal → Bool
  | .null => false
  | .bool b => b
  | .num n => !decide (n = 0)
  | .str s => !s.isEmpty
  | .arr _ => true
  | .obj _ => true

/-- The nullish-coalescing operator `x ?? d` applied to a property access
that may be absent (`none`), null, or a value. -/
def coalesce : Option JVal → JVal → JVal
  | none, d => d
  | some .null, d => d
  | some v, _ => v

/-! ## Schema discovery (lib/llm/schemaDiscovery.ts, discoverSchemaAndExtract)

The completion service is an oracle. Its observable behaviour at this
boundary: the call throws, or the returned message content is absent or
empty (falsy), or the content is a string JSON.parse rejects, or the content
parses to a JSON value. -/

/-- What the schema-discovery completion call may come back with. -/
inductive SchemaResponse where
  | noContent
  | invalidJson
  | json (v : JVal)

/-- lib/llm/schemaDiscovery.ts: the input is truncated to 40000 characters
before it is sent to the completion service. -/
def truncateForModel (s : Str) : Str :=
  if s.length > 40000 then s.take 40000 else s

structure Discovered where
  schema : JVal
  extracted : JVal
  confidence : JVal

/-- lib/llm/schemaDiscovery.ts: throw on a thrown call, on missing or empty
content, and on non-JSON content; otherwise read the three top-level keys
in object-literal order, each defaulting to the empty object under `??`.
The reads go through `JVal.getProp`, so the content "null" (valid JSON,
non-empty) throws a TypeError at `parsed.schema` rather than succeeding. -/
def discoverSchemaAndExtract (resp : Except String SchemaResponse) :
    Except String Discovered :=
  match resp with
  | .error e => .error e
  | .ok .noContent => .error "LLM returned empty response"
  | .ok .invalidJson => .error "Unexpected token in JSON"
  | .ok (.json v) =>
    match v.getProp "schema" with
    | .error e => .error e
    | .ok s =>
      match v.getProp "extracted" with
      | .error e => .error e
      | .ok ex =>
        match v.getProp "confidence" with
        | .error e => .error e
        | .ok cf =>
          .ok { schema := coalesce s (.obj [])
              , extracted := coalesce ex (.obj [])
              , confidence := coalesce cf (.obj []) }

/-! ## Embedding storage (lib/vector/embed.ts, embedAndStore) -/

/-- A database row write performed by the ingestion route. -/
inductive DBWrite where
  | document (id : String) (filename : String) (text : Str)
      (docSchema : JVal) (extracted : JVal) (confidence : JVal) (status : String)
  | embedding (documentId : String) (vector : List Int)

/-- Oracles for the two external steps of embedAndStore: the embedding
service call and the raw row insert. -/
structure EmbedEnv where
  create : Except String (List Int)
  insert : Except String Unit

/-- lib/vector/embed.ts: call the embedding service, then insert one
DocumentEmbedding row; a throw at either step propagates. -/
def embedAndStore (env : EmbedEnv) (docId : String) : Except String (List DBWrite) :=
  match env.create with
  | .error e => .error e
  | .ok vec =>
    match env.insert with
    | .error e => .error e
    | .ok _ => .ok [.embedding docId vec]

/-! ## Ingestion route (app/api/ingest/route.ts, POST) -/

/-- The HTTP responses the two API routes produce. -/
inductive ApiResponse where
  | okDoc (documentId : String)
  | okChat (content : Str) (toolCalls : Option Nat)
  | clientError (status : Nat) (msg : String)
  | serverError (msg : String)
deriving DecidableEq

/-- Oracles for every external call of one ingestion request, in the order
the route makes them. -/
structure IngestEnv where
  hasFile : Bool
  filename : String
  extract : Except String Str
  schemaResp : Except String SchemaResponse
  docCreate : Except String String
  embed : EmbedEnv

/-- app/api/ingest/route.ts POST: extract, sanitize, redact, discover the
schema, persist the Document row, then embed and store when the trimmed
redacted text has at least 20 characters. Any throw lands in the catch-all,
which answers 500 with the message; rows written before the throw stay
written. Returns the response together with the list of rows written. -/
def ingestPOST (env : IngestEnv) : ApiResponse × List DBWrite :=
  if !env.hasFile then (.clientError 400 "Missing file", [])
  else
    match env.extract with
    | .error e => (.serverError e, [])
    | .ok rawText =>
      let cleanText := sanitizeForPostgresText rawText
      let redacted := redactPII cleanText
      match discoverSchemaAndExtract env.schemaResp with
      | .error e => (.serverError e, [])
      | .ok disc =>
        match env.docCreate with
        | .error e => (.serverError e, [])
        | .ok docId =>
          let docWrite := DBWrite.document docId env.filename redacted
            disc.schema disc.extracted disc.confidence "REVIEW_REQUIRED"
          if 20 ≤ (jsTrim redacted).length then
            match embedAndStore env.embed docId with
            | .error e => (.serverError e, [docWrite])
            | .ok ws => (.okDoc docId, docWrite :: ws)
          else
            (.okDoc docId, [docWrite])

/-- Number of Document rows in a write list. -/
def docWriteCount (ws : List DBWrite) : Nat :=
  ws.countP fun w => match w with | .document _ _ _ _ _ _ _ => true | _ => false

/-- Number of DocumentEmbedding rows in a write list. -/
def embedWriteCount (ws : List DBWrite) : Nat :=
  ws.countP fun w => match w with | .embedding _ _ => true | _ => false

/-- Whether a response is the ingestion success response carrying a
document id. -/
def isOkDoc : ApiResponse → Bool
  | .okDoc _ => true
  | _ => false

/-- The `extracted` object of the first Document row of a write list. -/
def docExtracted : List DBWrite → Option JVal
  | [] => none
  | .document _ _ _ _ e _ _ :: _ => some e
  | _ :: ws => docExtracted ws

/-! ## Conversation orchestrator (app/api/chat/route.ts, POST)

Per-request external calls, in source order: the Document findUnique read,
the user-message insert, the query-embedding call, the raw nearest-neighbor
SQL, the first completion call, (when the first response carries tool
calls) the second completion call, and the assistant-message insert. Each
occurrence is appended to an event trace so the ordering claims can be
stated about the trace. -/

/-- A persisted Document row as the chat route reads it. -/
structure DocumentRec where
  id : String
  filename : String
  text : Str
  docSchema : JVal
  extracted : JVal
  confidence : JVal
  status : String

/-- A DocumentEmbedding row. -/
structure EmbeddingRow where
  id : String
  documentId : String
  vector : List Int

/-- The relational store as the chat route sees it. -/
structure ChatDb where
  documents : List DocumentRec
  embeddings : List EmbeddingRow

/-- Prisma findUnique on Document by id. -/
def findDoc (db : ChatDb) (docId : String) : Option DocumentRec :=
  db.documents.find? (fun d => d.id == docId)

/-- A row of the raw nearest-neighbor query: the SQL selects d.id, d.text,
d.extracted, d.schema and the distance, joining Document on the embedding
row's documentId. -/
structure RetrievedRow where
  id : String
  text : Str
  extracted : JVal
  docSchema : JVal
  distance : Int

/-- Squared Euclidean distance, the ordering key of pgvector's `<->`
operator (monotone in the true L2 distance, so it induces the same order). -/
def l2sq (v w : List Int) : Int :=
  ((v.zip w).map (fun p => (p.1 - p.2) ^ 2)).sum

/-- The raw SQL of the chat route: embeddings restricted to the document,
joined with the Document table on the embedding's documentId, ordered by
distance to the query vector, LIMIT 3. -/
def retrieveRows (db : ChatDb) (docId : String) (qv : List Int) :
    List RetrievedRow :=
  match findDoc db docId with
  | none => []
  | some d =>
    let es := db.embeddings.filter (fun e => e.documentId == docId)
    let sorted := es.mergeSort (fun a b => l2sq a.vector qv ≤ l2sq b.vector qv)
    (sorted.take 3).map (fun e =>
      { id := d.id, text := d.text, extracted := d.extracted
      , docSchema := d.docSchema, distance := l2sq e.vector qv })

/-- app/api/chat/route.ts lines 74-77: the first retrieved row's text with
the `||` fallback to the document's text, or the document's text when the
query returned no rows. -/
def contextText (db : ChatDb) (docId : String) (document : DocumentRec)
    (qv : List Int) : Str :=
  match retrieveRows db docId qv with
  | [] => document.text
  | r :: _ => if r.text = [] then document.text else r.text

/-! ### Tools executed locally by the orchestrator -/

/-- A tool call of the first completion response: id, type, function name
and the parsed form of `JSON.parse(arguments || "{}")`. -/
structure ToolCall where
  id : String
  type : String
  fnName : String
  args : JVal

/-- Content of a tool-result message: get_extracted_data answers with
JSON.stringify of a JSON value, search_document_text with a plain string. -/
inductive ToolContent where
  | jsonOf (v : JVal)
  | text (s : Str)

/-- A tool-result message pushed before the second completion call. -/
structure ToolResult where
  tool_call_id : String
  name : String
  content : ToolContent

/-- The dotted-path walk of get_extracted_data: at each key, step into the
value when it is an object or array containing the key, else null and stop.
The `key in current` test is modelled as own-property membership; JavaScript
`in` would also find prototype-chain keys such as "toString", which carry
function values outside this JSON model and which no claim exercises. -/
def walkField : JVal → List String → JVal
  | v, [] => v
  | .obj fields, k :: ks =>
    match fields.lookup k with
    | some v => walkField v ks
    | none => .null
  | .arr xs, k :: ks =>
    match arrMember xs k with
    | some v => walkField v ks
    | none => .null
  | _, _ :: _ => .null

/-- get_extracted_data: reading args.field throws on null args; a falsy
field (absent, null, the empty string, zero, false) leaves the whole
extracted object; a truthy string field is split on dots and walked; a
truthy non-string field has no .split method, so the route throws. -/
def getExtractedData (extracted : JVal) (args : JVal) : Except String JVal :=
  match args.getProp "field" with
  | .error e => .error e
  | .ok none => .ok extracted
  | .ok (some fv) =>
    if fv.truthy then
      match fv with
      | .str s => .ok (walkField extracted ((String.mk s).splitOn "." ))
      | _ => .error "field.split is not a function"
    else .ok extracted

/-- args.query?.toLowerCase() || "": reading args.query throws on null
args (optional chaining guards only the query value, not the receiver);
an undefined or null query gives the empty string, a string is lowercased,
and any other query value has no .toLowerCase method, so the route
throws. -/
def queryOfArgs (args : JVal) : Except String Str :=
  match args.getProp "query" with
  | .error e => .error e
  | .ok none => .ok []
  | .ok (some .null) => .ok []
  | .ok (some (.str s)) => .ok (s.map Char.toLower)
  | .ok (some _) => .error "query.toLowerCase is not a function"

/-- Needle occurs at the head of the haystack. -/
def headMatches : Str → Str → Bool
  | [], _ => true
  | _ :: _, [] => false
  | c :: cs, d :: ds => c == d && headMatches cs ds

/-- JavaScript String.prototype.includes: substring containment. -/
def containsSub : Str → Str → Bool
  | hay, needle =>
    match hay with
    | [] => headMatches needle []
    | _ :: hs => headMatches needle hay || containsSub hs needle

/-- JavaScript String.prototype.split("\n"). -/
def splitNl : Str → List Str
  | [] => [[]]
  | c :: cs =>
    match splitNl cs with
    | [] => [[]]
    | t :: ts => if c = '\n' then [] :: t :: ts else (c :: t) :: ts

/-- JavaScript Array.prototype.join("\n"). -/
def joinNl : List Str → Str
  | [] => []
  | [x] => x
  | x :: y :: xs => x ++ '\n' :: joinNl (y :: xs)

/-- search_document_text: split the document text into lines, keep the lines
whose lowercased form contains the lowercased query, take the first five,
join with newlines, and fall back to the no-match marker when the joined
string is empty. -/
def searchDocumentText (docText : Str) (query : Str) : Str :=
  let lines := splitNl docText
  let joined := joinNl ((lines.filter
    (fun line => containsSub (line.map Char.toLower) query)).take 5)
  if joined = [] then "No matching text found.".data else joined

/-- One iteration of the tool-call loop: a recognised function call yields a
tool-result message, a call of any other name or type yields none, and a
thrown argument error propagates. -/
def toolResultFor (document : DocumentRec) (tc : ToolCall) :
    Except String (Option ToolResult) :=
  if tc.type = "function" then
    if tc.fnName = "get_extracted_data" then
      match getExtractedData document.extracted tc.args with
      | .error e => .error e
      | .ok v => .ok (some { tool_call_id := tc.id, name := tc.fnName
                           , content := .jsonOf v })
    else if tc.fnName = "search_document_text" then
      match queryOfArgs tc.args with
      | .error e => .error e
      | .ok q => .ok (some { tool_call_id := tc.id, name := tc.fnName
                           , content := .text (searchDocumentText document.text q) })
    else .ok none
  else .ok none

/-- The whole tool-call loop, gathering the pushed tool results in order. -/
def toolResultsFor (document : DocumentRec) : List ToolCall →
    Except String (List ToolResult)
  | [] => .ok []
  | tc :: tcs =>
    match toolResultFor document tc with
    | .error e => .error e
    | .ok none => toolResultsFor document tcs
    | .ok (some r) =>
      match toolResultsFor document tcs with
      | .error e => .error e
      | .ok rs => .ok (r :: rs)

/-! ### The chat turn -/

/-- An incoming message of the request body. -/
structure ChatMsgIn where
  role : String
  content : Str

/-- A completion-service response message: content (null becomes none) and
tool calls (absent becomes the empty list). -/
structure AssistantResp where
  content : Option Str
  tool_calls : List ToolCall

/-- A ChatMessage row insert performed by the chat route. -/
inductive ChatWrite where
  | userMsg (documentId : String) (content : Str)
  | assistantMsg (documentId : String) (content : Str)
      (toolCalls : Option (List ToolCall))

/-- The event kinds of one chat turn, in the order the route performs them. -/
inductive ChatEvent where
  | storeReadDocument
  | persistUser
  | embedCall
  | retrievalQuery
  | completionCall
  | persistAssistant
deriving DecidableEq

/-- Oracles and inputs of one chat turn. -/
structure ChatEnv where
  documentId : Option String
  messages : Option (List ChatMsgIn)
  db : ChatDb
  queryVector : List Int
  firstResponse : AssistantResp
  secondResponse : AssistantResp

/-- The outcome of one chat turn: the HTTP response, the ChatMessage rows
written, and the trace of reads, writes and external calls in order. -/
structure ChatOutcome where
  response : ApiResponse
  writes : List ChatWrite
  events : List ChatEvent

/-- app/api/chat/route.ts POST. Validation of the body precedes the
document read; the last-message check follows it; the user message is
persisted before the embedding call, the retrieval query and the completion
calls; the assistant message is persisted after the final completion call,
with toolCalls = the first response's tool calls when there were any, else
null; a second completion call happens exactly when the first response
carried tool calls, and its own content is final. -/
def chatPOST (env : ChatEnv) : ChatOutcome :=
  match env.documentId, env.messages with
  | none, _ =>
    { response := .clientError 400 "Missing documentId or messages"
    , writes := [], events := [] }
  | some _, none =>
    { response := .clientError 400 "Missing documentId or messages"
    , writes := [], events := [] }
  | some docId, some messages =>
    if docId = "" then
      { response := .clientError 400 "Missing documentId or messages"
      , writes := [], events := [] }
    else
      match findDoc env.db docId with
      | none =>
        { response := .clientError 404 "Document not found"
        , writes := [], events := [.storeReadDocument] }
      | some document =>
        match messages.getLast? with
        | none =>
          { response := .clientError 400 "Last message must be from user"
          , writes := [], events := [.storeReadDocument] }
        | some lastMessage =>
          if lastMessage.role ≠ "user" then
            { response := .clientError 400 "Last message must be from user"
            , writes := [], events := [.storeReadDocument] }
          else
            let userWrite := ChatWrite.userMsg docId lastMessage.content
            let _ctx := contextText env.db docId document env.queryVector
            let first := env.firstResponse
            if !first.tool_calls.isEmpty then
              match toolResultsFor document first.tool_calls with
              | .error e =>
                { response := .serverError e
                , writes := [userWrite]
                , events := [.storeReadDocument, .persistUser, .embedCall,
                             .retrievalQuery, .completionCall] }
              | .ok _results =>
                let final := env.secondResponse
                { response := .okChat (final.content.getD [])
                    (some first.tool_calls.length)
                , writes := [userWrite,
                    .assistantMsg docId (final.content.getD [])
                      (some first.tool_calls)]
                , events := [.storeReadDocument, .persistUser, .embedCall,
                             .retrievalQuery, .completionCall, .completionCall,
                             .persistAssistant] }
            else
              { response := .okChat (first.content.getD []) none
              , writes := [userWrite,
                  .assistantMsg docId (first.content.getD []) none]
              , events := [.storeReadDocument, .persistUser, .embedCall,
                           .retrievalQuery, .completionCall, .persistAssistant] }

/-- The toolCalls column of every assistant ChatMessage row written, in
order. -/
def assistantToolCalls (ws : List ChatWrite) : List (Option (List ToolCall)) :=
  ws.filterMap fun w =>
    match w with
    | .assistantMsg _ _ tc => some tc
    | _ => none

/-- External calls as the specification enumerates them for the ordering
claim: store reads, the embedding call, the retrieval query and the
completion calls. -/
def isExternalCall : ChatEvent → Bool
  | .storeReadDocument => true
  | .embedCall => true
  | .retrievalQuery => true
  | .completionCall => true
  | _ => false

/-- The external calls that are not store reads. -/
def isPostValidationCall : ChatEvent → Bool
  | .embedCall => true
  | .retrievalQuery => true
  | .completionCall => true
  | _ => false

/-- Every event satisfying `target` comes strictly after an occurrence of
`persistUser`; `seen` records whether one has occurred yet. -/
def precededByUserPersist (target : ChatEvent → Bool) :
    Bool → List ChatEvent → Bool
  | _, [] => true
  | seen, e :: es =>
    (!target e || seen) &&
      precededByUserPersist target (seen || e == .persistUser) es

/-- No completion call occurs after an assistant-message persist. -/
def noCompletionAfterAssistant : List ChatEvent → Bool
  | [] => true
  | e :: es =>
    (if e = .persistAssistant
     then es.all (fun x => !(x == .completionCall))
     else true) && noCompletionAfterAssistant es

/-! ## The fixed target shape of the extracted object

The system instruction of lib/llm/schemaDiscovery.ts requires the extracted
object to carry doc_type, person, summary, skills, experience, education and
raw_highlights, with arrays present even when empty and nulls for unknown
scalars. This predicate checks the presence obligations of that shape that
claim C7 states: list fields present as arrays, scalar fields present. -/

/-- The option holds an array. -/
def isArrOpt : Option JVal → Bool
  | some (.arr _) => true
  | _ => false

/-- Presence obligations of the fixed target shape: the four list fields
are present as arrays and the scalar-or-object fields are present keys. -/
def followsExtractedShape (v : JVal) : Bool :=
  isArrOpt (v.lookupKey "skills") && isArrOpt (v.lookupKey "experience") &&
  isArrOpt (v.lookupKey "education") && isArrOpt (v.lookupKey "raw_highlights") &&
  (v.lookupKey "doc_type").isSome && (v.lookupKey "person").isSome &&
  (v.lookupKey "summary").isSome

/-! ## Concrete inputs for witnesses and counterexamples -/

/-- 30 characters of plain text, no digits, no leading or trailing blanks. -/
def rawLong : Str := "The quick brown fox jumps over".data

/-- 20 characters whose JavaScript trim has only 2: two letters followed by
18 spaces. -/
def rawPadded : Str := 'a' :: 'b' :: List.replicate 18 ' '

/-- An ingestion run in which steps 1 to 4 succeed and the embedding
service throws. -/
def envEmbedFail : IngestEnv :=
  { hasFile := true, filename := "a.txt", extract := .ok rawLong
  , schemaResp := .ok (.json (.obj [])), docCreate := .ok "doc-1"
  , embed := { create := .error "embedding service unavailable", insert := .ok () } }

/-- An ingestion run over the padded text, with every external call
succeeding. -/
def envPadded : IngestEnv :=
  { hasFile := true, filename := "b.txt", extract := .ok rawPadded
  , schemaResp := .ok (.json (.obj [])), docCreate := .ok "doc-2"
  , embed := { create := .ok [1], insert := .ok () } }

/-- An ingestion run in which the completion service answers with empty
content during schema discovery. -/
def envEmptyModel : IngestEnv :=
  { hasFile := true, filename := "c.txt", extract := .ok rawLong
  , schemaResp := .ok .noContent, docCreate := .ok "doc-3"
  , embed := { create := .ok [1], insert := .ok () } }

/-- An ingestion run in which the model answers with valid JSON that omits
every key of the target shape. -/
def envBareJson : IngestEnv :=
  { hasFile := true, filename := "d.txt", extract := .ok "hi".data
  , schemaResp := .ok (.json (.obj [])), docCreate := .ok "doc-4"
  , embed := { create := .ok [1], insert := .ok () } }

/-- A persisted document used by the chat-turn witnesses. -/
def sampleDoc : DocumentRec :=
  { id := "d1", filename := "f.txt", text := "hello\nworld".data
  , docSchema := .obj [], extracted := .obj [("skills", .arr [])]
  , confidence := .obj [], status := "REVIEW_REQUIRED" }

/-- A store holding the sample document and one embedding row for it. -/
def sampleDb : ChatDb :=
  { documents := [sampleDoc]
  , embeddings := [{ id := "e1", documentId := "d1", vector := [1, 2] }] }

/-- A chat turn whose first completion response carries no tool calls. -/
def chatEnvNoTools : ChatEnv :=
  { documentId := some "d1", messages := some [⟨"user", "hi".data⟩]
  , db := sampleDb, queryVector := [0, 0]
  , firstResponse := { content := some "ok".data, tool_calls := [] }
  , secondResponse := { content := some "fin".data, tool_calls := [] } }

/-- A tool call whose function name no branch of the loop recognises. -/
def unknownToolCall : ToolCall :=
  { id := "call-1", type := "function", fnName := "do_magic", args := .obj [] }

/-- A chat turn whose first completion response carries one unrecognised
tool call. -/
def chatEnvUnknownTool : ChatEnv :=
  { chatEnvNoTools with
    firstResponse := { content := none, tool_calls := [unknownToolCall] } }

/-! # Supporting lemmas -/

/-- JavaScript trim never lengthens a string. -/
theorem jsTrim_length_le (s : Str) : (jsTrim s).length ≤ s.length := by
  have h1 : (s.dropWhile jsWhitespace).length ≤ s.length :=
    (List.dropWhile_sublist _).length_le
  have h2 : (((s.dropWhile jsWhitespace).reverse).dropWhile jsWhitespace).length ≤
      ((s.dropWhile jsWhitespace).reverse).length :=
    (List.dropWhile_sublist _).length_le
  simp only [jsTrim, List.length_reverse] at *
  omega

/-- String.prototype.split never yields an empty array. -/
theorem splitNl_ne_nil (s : Str) : splitNl s ≠ [] := by
  cases s with
  | nil => simp [splitNl]
  | cons c cs =>
    simp only [splitNl]
    cases splitNl cs with
    | nil => simp
    | cons t ts => by_cases hc : c = '\n' <;> simp [hc]

/-- Joining the first five lines of a non-empty string never yields the
empty string (the first character of the string, or a line separator,
survives into the join). -/
theorem joinNl_take_splitNl_ne_nil (s : Str) (h : s ≠ []) :
    joinNl ((splitNl s).take 5) ≠ [] := by
  cases s with
  | nil => exact absurd rfl h
  | cons c cs =>
    cases hsp : splitNl cs with
    | nil => exact absurd hsp (splitNl_ne_nil cs)
    | cons t ts =>
      simp only [splitNl, hsp]
      by_cases hc : c = '\n'
      · simp [hc, joinNl]
      · simp only [if_neg hc, List.take_succ_cons]
        cases ts.take 4 with
        | nil => simp [joinNl]
        | cons u us => simp [joinNl]

/-- The empty needle is a substring of every string. -/
theorem containsSub_nil (hay : Str) : containsSub hay [] = true := by
  cases hay <;> rfl

/-- A tool call of an unrecognised type or function name produces no tool
result and no error. -/
theorem toolResultFor_unrecognised (document : DocumentRec) (tc : ToolCall)
    (hbad : tc.type ≠ "function" ∨
      (tc.fnName ≠ "get_extracted_data" ∧ tc.fnName ≠ "search_document_text")) :
    toolResultFor document tc = .ok none := by
  unfold toolResultFor
  rcases hbad with hty | ⟨hn1, hn2⟩
  · rw [if_neg hty]
  · by_cases hty : tc.type = "function"
    · rw [if_pos hty, if_neg hn1, if_neg hn2]
    · rw [if_neg hty]

/-- Every text field of a retrieved row is the joined document text. -/
theorem retrieveRows_text (db : ChatDb) (docId : String)
    (document : DocumentRec) (qv : List Int)
    (h : findDoc db docId = some document) :
    ∀ r ∈ retrieveRows db docId qv, r.text = document.text := by
  intro r hr
  unfold retrieveRows at hr
  rw [h] at hr
  simp only [List.mem_map] at hr
  obtain ⟨e, -, rfl⟩ := hr
  rfl

/-- The event traces one chat turn can produce. -/
theorem chat_events_shape (env : ChatEnv) :
    (chatPOST env).events = [] ∨
    (chatPOST env).events = [.storeReadDocument] ∨
    (chatPOST env).events = [.storeReadDocument, .persistUser, .embedCall,
      .retrievalQuery, .completionCall] ∨
    (chatPOST env).events = [.storeReadDocument, .persistUser, .embedCall,
      .retrievalQuery, .completionCall, .persistAssistant] ∨
    (chatPOST env).events = [.storeReadDocument, .persistUser, .embedCall,
      .retrievalQuery, .completionCall, .completionCall, .persistAssistant] := by
  obtain ⟨di, ms, db, qv, fr, sr⟩ := env
  cases di with
  | none => simp [chatPOST]
  | some docId =>
    cases ms with
    | none => simp [chatPOST]
    | some msgs =>
      by_cases hid : docId = ""
      · simp [chatPOST, hid]
      · cases hfd : findDoc db docId with
        | none => simp [chatPOST, hid, hfd]
        | some document =>
          cases hl : msgs.getLast? with
          | none => simp [chatPOST, hid, hfd, hl]
          | some lastMessage =>
            by_cases hrole : lastMessage.role = "user"
            · by_cases htc : fr.tool_calls.isEmpty
              · simp [chatPOST, hid, hfd, hl, hrole, htc]
              · cases htr : toolResultsFor document fr.tool_calls with
                | error e => simp [chatPOST, hid, hfd, hl, hrole, htc, htr]
                | ok rs => simp [chatPOST, hid, hfd, hl, hrole, htc, htr]
            · simp [chatPOST, hid, hfd, hl, hrole]

/-! # Claim C4 -/

/-- Claim C4 as stated is false on the code: DEL (U+007F) is a control
character outside the tab, line-feed and carriage-return set, yet
sanitization keeps it, because the stripped class stops at U+001F. -/
theorem sanitize_del_preserved_cex :
    isControlChar (Char.ofNat 127) = true ∧
    (Char.ofNat 127).toNat ≠ 9 ∧ (Char.ofNat 127).toNat ≠ 10 ∧
    (Char.ofNat 127).toNat ≠ 13 ∧
    sanitizeForPostgresText [Char.ofNat 127] = [Char.ofNat 127] := by decide

/-- Claim C4 (amended to the C0 range): no character below U+0020 other
than tab, line feed or carriage return survives sanitization — every such
character of the input is deleted, and the output contains none. -/
theorem sanitize_removes_c0_controls (s : Str) (c : Char)
    (hmem : c ∈ sanitizeForPostgresText s) (hc : c.toNat < 32) :
    c.toNat = 9 ∨ c.toNat = 10 ∨ c.toNat = 13 := by
  unfold sanitizeForPostgresText at hmem
  rw [List.mem_filter] at hmem
  obtain ⟨hmem1, hctl⟩ := hmem
  rw [List.mem_filter] at hmem1
  obtain ⟨-, h0⟩ := hmem1
  simp only [isStrippedControl, Bool.not_eq_true', decide_eq_false_iff_not] at hctl h0
  omega

/-- Witness: the tab character survives sanitizing "a\th" and is one of
the three permitted control characters. -/
theorem sanitize_removes_c0_controls_witness :
    (Char.ofNat 9).toNat = 9 ∨ (Char.ofNat 9).toNat = 10 ∨
    (Char.ofNat 9).toNat = 13 :=
  sanitize_removes_c0_controls ['a', Char.ofNat 9, 'h'] (Char.ofNat 9)
    (by decide) (by decide)

/-! # Claim C5 -/

/-- Claim C5: when step 1 (extraction) or step 4 (schema discovery, in
particular an empty or non-JSON model response) throws, the route reaches
the catch-all before any create, so no Document row and no Embedding row is
written and no document id is returned. -/
theorem ingest_step_failure_writes_nothing (env : IngestEnv)
    (h : (∃ e, env.extract = .error e) ∨
         (∃ e, discoverSchemaAndExtract env.schemaResp = .error e)) :
    (ingestPOST env).2 = [] ∧ isOkDoc (ingestPOST env).1 = false := by
  unfold ingestPOST
  cases hf : env.hasFile with
  | false => simp [isOkDoc]
  | true =>
    rcases h with ⟨e, he⟩ | ⟨e, he⟩
    · simp [he, isOkDoc]
    · cases hex : env.extract with
      | error e2 => simp [isOkDoc]
      | ok raw => simp [he, isOkDoc]

/-- Witness: a run whose completion service answers with empty content
writes nothing and returns no document id. -/
theorem ingest_step_failure_writes_nothing_witness :
    (ingestPOST envEmptyModel).2 = [] ∧ isOkDoc (ingestPOST envEmptyModel).1 = false :=
  ingest_step_failure_writes_nothing envEmptyModel
    (Or.inr ⟨"LLM returned empty response", rfl⟩)

/-! # Claim C1 -/

/-- Claim C1 as stated is false on the code: with steps 1-4 succeeding and
the embedding service throwing, the Document row is written (count 1), yet
the caller receives the catch-all 500 failure, not a degraded success with
the document id. -/
theorem ingest_embed_failure_reported_as_failure_cex :
    docWriteCount (ingestPOST envEmbedFail).2 = 1 ∧
    isOkDoc (ingestPOST envEmbedFail).1 = false ∧
    (ingestPOST envEmbedFail).1 =
      ApiResponse.serverError "embedding service unavailable" := by decide

/-- Claim C1 (amended): when steps 1-4 succeed and the embedding step
throws, the Document row is still persisted — but the caller is answered
with an overall ingestion failure carrying the embedding error, not with a
degraded success, because the embedding call sits inside the route's only
try/catch. -/
theorem ingest_embed_failure_doc_persisted (env : IngestEnv) (raw : Str)
    (disc : Discovered) (docId : String) (e : String)
    (hf : env.hasFile = true)
    (hex : env.extract = .ok raw)
    (hd : discoverSchemaAndExtract env.schemaResp = .ok disc)
    (hc : env.docCreate = .ok docId)
    (hlen : 20 ≤ (jsTrim (redactPII (sanitizeForPostgresText raw))).length)
    (he : embedAndStore env.embed docId = .error e) :
    (ingestPOST env).1 = .serverError e ∧
    (ingestPOST env).2 = [DBWrite.document docId env.filename
      (redactPII (sanitizeForPostgresText raw)) disc.schema disc.extracted
      disc.confidence "REVIEW_REQUIRED"] := by
  unfold ingestPOST
  simp [hf, hex, hd, hc, hlen, he]

/-- Witness: the embedding-failure run over the 30-character input persists
exactly the Document row and answers with the embedding error. -/
theorem ingest_embed_failure_doc_persisted_witness :
    (ingestPOST envEmbedFail).1 = .serverError "embedding service unavailable" ∧
    (ingestPOST envEmbedFail).2 = [DBWrite.document "doc-1" "a.txt"
      (redactPII (sanitizeForPostgresText rawLong)) (JVal.obj []) (JVal.obj [])
      (JVal.obj []) "REVIEW_REQUIRED"] :=
  ingest_embed_failure_doc_persisted envEmbedFail rawLong
    ⟨.obj [], .obj [], .obj []⟩ "doc-1" "embedding service unavailable"
    rfl rfl rfl rfl (by decide) rfl

/-! # Claim C2 -/

/-- Claim C2 as stated is false on the code: the padded 20-character
redacted text meets the claim's length bound, the run succeeds, yet zero
Embedding rows are created, because the route tests the trimmed length. -/
theorem embedding_threshold_untrimmed_cex :
    20 ≤ (redactPII (sanitizeForPostgresText rawPadded)).length ∧
    isOkDoc (ingestPOST envPadded).1 = true ∧
    embedWriteCount (ingestPOST envPadded).2 = 0 := by decide

/-- Claim C2 (amended): in a run whose external calls all succeed, exactly
one Embedding row is created when the trimmed redacted text has at least 20
characters, and zero otherwise; since trimming never lengthens, redacted
text shorter than 20 characters always yields zero Embedding rows. -/
theorem embedding_row_iff_trimmed_length (env : IngestEnv) (raw : Str)
    (disc : Discovered) (docId : String) (vec : List Int)
    (hf : env.hasFile = true)
    (hex : env.extract = .ok raw)
    (hd : discoverSchemaAndExtract env.schemaResp = .ok disc)
    (hc : env.docCreate = .ok docId)
    (hcr : env.embed.create = .ok vec)
    (hin : env.embed.insert = .ok ()) :
    embedWriteCount (ingestPOST env).2 =
      (if 20 ≤ (jsTrim (redactPII (sanitizeForPostgresText raw))).length
       then 1 else 0) := by
  unfold ingestPOST embedAndStore
  by_cases hlen : 20 ≤ (jsTrim (redactPII (sanitizeForPostgresText raw))).length
  · simp [hf, hex, hd, hc, hcr, hin, hlen, embedWriteCount]
  · simp [hf, hex, hd, hc, hcr, hin, hlen, embedWriteCount]

/-- Witness: the all-successful padded run creates zero Embedding rows,
matching its trimmed length of 2. -/
theorem embedding_row_iff_trimmed_length_witness :
    embedWriteCount (ingestPOST envPadded).2 =
      (if 20 ≤ (jsTrim (redactPII (sanitizeForPostgresText rawPadded))).length
       then 1 else 0) :=
  embedding_row_iff_trimmed_length envPadded rawPadded
    ⟨.obj [], .obj [], .obj []⟩ "doc-2" [1] rfl rfl rfl rfl rfl rfl

/-! # Claim C7 -/

/-- Claim C7 as stated is false on the code: the completion service may
answer with the bare JSON object, the ingestion succeeds, and the persisted
`extracted` object carries none of the target-shape keys — list fields are
missing, not empty arrays. -/
theorem extracted_shape_not_enforced_cex :
    isOkDoc (ingestPOST envBareJson).1 = true ∧
    (docExtracted (ingestPOST envBareJson).2).isSome = true ∧
    (docExtracted (ingestPOST envBareJson).2).map followsExtractedShape =
      some false := by decide

/-- Claim C7 (amended): the target shape is requested from the model but
never enforced; whenever the model's response parses to a non-null JSON
value, ingestion persists exactly its `extracted` member — defaulted to
the empty object when absent or null, with no shape validation — and a
response parsing to top-level null instead throws at property access
before the create, persisting no Document row at all. -/
theorem extracted_passthrough (env : IngestEnv) (raw : Str) (v : JVal)
    (docId : String)
    (hf : env.hasFile = true)
    (hex : env.extract = .ok raw)
    (hs : env.schemaResp = .ok (.json v))
    (hc : env.docCreate = .ok docId) :
    docExtracted (ingestPOST env).2 =
      (if v.isNull then none
       else some (coalesce (v.lookupKey "extracted") (.obj []))) := by
  unfold ingestPOST
  simp only [hf, Bool.not_true, Bool.false_eq_true, if_false, hex, hs]
  cases v
  case null =>
    simp [discoverSchemaAndExtract, JVal.getProp, JVal.isNull, docExtracted]
  all_goals
    simp only [discoverSchemaAndExtract, JVal.getProp, hc, JVal.isNull,
      Bool.false_eq_true, if_false]
    split
    · cases embedAndStore env.embed docId <;> simp [docExtracted]
    · simp [docExtracted]

/-- Witness: the bare-JSON run persists the empty object as `extracted`. -/
theorem extracted_passthrough_witness :
    docExtracted (ingestPOST envBareJson).2 =
      (if (JVal.obj []).isNull then none
       else some (coalesce ((JVal.obj []).lookupKey "extracted") (.obj []))) :=
  extracted_passthrough envBareJson ("hi".data) (.obj []) "doc-4"
    rfl rfl rfl rfl

/-! # Claim C3 -/

/-- Claim C3 as stated is false on the code: in a successful turn the
document findUnique — a store read, an external call by the claim's own
enumeration — happens before the user message is persisted. -/
theorem chat_user_persist_order_cex :
    precededByUserPersist isExternalCall false (chatPOST chatEnvNoTools).events =
      false ∧
    ChatEvent.storeReadDocument ∈ (chatPOST chatEnvNoTools).events ∧
    isExternalCall ChatEvent.storeReadDocument = true := by decide

/-- Claim C3 (amended): within one turn, persisting the user message
strictly precedes the embedding call, the retrieval query and every
completion call — every external call except the initial document store
read, which precedes it — and persisting the assistant message strictly
follows the final completion call. -/
theorem chat_turn_ordering (env : ChatEnv) :
    precededByUserPersist isPostValidationCall false (chatPOST env).events = true ∧
    noCompletionAfterAssistant (chatPOST env).events = true := by
  rcases chat_events_shape env with h | h | h | h | h <;> rw [h] <;> exact ⟨rfl, rfl⟩

/-! # Claim C6 -/

/-- Claim C6: a turn whose first completion response has no tool calls
persists exactly one assistant message with toolCalls null after one
completion call; a turn with tool calls persists exactly one assistant
message recording all of them, after exactly two completion calls — the
second response is final either way. -/
theorem chat_tool_call_rounds (env : ChatEnv)
    (h : ChatEvent.persistAssistant ∈ (chatPOST env).events) :
    assistantToolCalls (chatPOST env).writes =
      [if env.firstResponse.tool_calls.isEmpty then none
       else some env.firstResponse.tool_calls] ∧
    (chatPOST env).events.count ChatEvent.completionCall =
      (if env.firstResponse.tool_calls.isEmpty then 1 else 2) := by
  obtain ⟨di, ms, db, qv, fr, sr⟩ := env
  cases di with
  | none => simp [chatPOST] at h
  | some docId =>
    cases ms with
    | none => simp [chatPOST] at h
    | some msgs =>
      by_cases hid : docId = ""
      · simp [chatPOST, hid] at h
      · cases hfd : findDoc db docId with
        | none => simp [chatPOST, hid, hfd] at h
        | some document =>
          cases hl : msgs.getLast? with
          | none => simp [chatPOST, hid, hfd, hl] at h
          | some lastMessage =>
            by_cases hrole : lastMessage.role = "user"
            · by_cases htc : fr.tool_calls.isEmpty
              · simp [chatPOST, hid, hfd, hl, hrole, htc, assistantToolCalls]
              · cases htr : toolResultsFor document fr.tool_calls with
                | error e => simp [chatPOST, hid, hfd, hl, hrole, htc, htr] at h
                | ok rs =>
                  simp [chatPOST, hid, hfd, hl, hrole, htc, htr, assistantToolCalls]
            · simp [chatPOST, hid, hfd, hl, hrole] at h

/-- Witness: the no-tool-calls turn persists one assistant message with
toolCalls null after a single completion call. -/
theorem chat_tool_call_rounds_witness :
    assistantToolCalls (chatPOST chatEnvNoTools).writes =
      [if chatEnvNoTools.firstResponse.tool_calls.isEmpty then none
       else some chatEnvNoTools.firstResponse.tool_calls] ∧
    (chatPOST chatEnvNoTools).events.count ChatEvent.completionCall =
      (if chatEnvNoTools.firstResponse.tool_calls.isEmpty then 1 else 2) :=
  chat_tool_call_rounds chatEnvNoTools (by decide)

/-! # Claim C8 -/

/-- Claim C8: the context text of the system message always equals the
document's full stored text, whatever the query vector and however many
embedding rows exist: the nearest-neighbor SQL joins Document on the same
documentId, so every retrieved row carries that document's text, and the
zero-embeddings fallback reads the same column. -/
theorem context_text_eq_document_text (db : ChatDb) (docId : String)
    (document : DocumentRec) (qv : List Int)
    (h : findDoc db docId = some document) :
    contextText db docId document qv = document.text := by
  unfold contextText
  cases hrr : retrieveRows db docId qv with
  | nil => rfl
  | cons r rs =>
    have hr : r.text = document.text :=
      retrieveRows_text db docId document qv h r
        (by rw [hrr]; exact List.mem_cons_self r rs)
    show (if r.text = [] then document.text else r.text) = document.text
    rw [hr]
    split <;> rfl

/-- Witness: over the sample store with one embedding row, the context text
is the sample document's text. -/
theorem context_text_eq_document_text_witness :
    contextText sampleDb "d1" sampleDoc [0, 0] = sampleDoc.text :=
  context_text_eq_document_text sampleDb "d1" sampleDoc [0, 0] rfl

/-! # Claim C9 -/

/-- Claim C9: a first-phase tool call whose type is not function or whose
name is neither get_extracted_data nor search_document_text produces no
tool-result message before the second completion call, yet the persisted
assistant message's toolCalls records the full tool-call list including
that call. -/
theorem unknown_tool_call_recorded_not_executed (env : ChatEnv)
    (docId : String) (document : DocumentRec) (tc : ToolCall)
    (hid : env.documentId = some docId)
    (hdoc : findDoc env.db docId = some document)
    (hpa : ChatEvent.persistAssistant ∈ (chatPOST env).events)
    (htc : tc ∈ env.firstResponse.tool_calls)
    (hbad : tc.type ≠ "function" ∨
      (tc.fnName ≠ "get_extracted_data" ∧ tc.fnName ≠ "search_document_text")) :
    toolResultFor document tc = .ok none ∧
    assistantToolCalls (chatPOST env).writes =
      [some env.firstResponse.tool_calls] := by
  refine ⟨toolResultFor_unrecognised document tc hbad, ?_⟩
  obtain ⟨di, ms, db, qv, fr, sr⟩ := env
  simp only at hid hdoc htc hpa ⊢
  subst hid
  have htcne : fr.tool_calls.isEmpty = false := by
    cases hcs : fr.tool_calls with
    | nil => rw [hcs] at htc; cases htc
    | cons a as => rfl
  cases ms with
  | none => simp [chatPOST] at hpa
  | some msgs =>
    by_cases hid2 : docId = ""
    · simp [chatPOST, hid2] at hpa
    · cases hl : msgs.getLast? with
      | none => simp [chatPOST, hid2, hdoc, hl] at hpa
      | some lastMessage =>
        by_cases hrole : lastMessage.role = "user"
        · cases htr : toolResultsFor document fr.tool_calls with
          | error e => simp [chatPOST, hid2, hdoc, hl, hrole, htcne, htr] at hpa
          | ok rs =>
            simp [chatPOST, hid2, hdoc, hl, hrole, htcne, htr, assistantToolCalls]
        · simp [chatPOST, hid2, hdoc, hl, hrole] at hpa

/-- Witness: the turn whose only tool call is named do_magic records it in
toolCalls while executing nothing for it. -/
theorem unknown_tool_call_recorded_not_executed_witness :
    toolResultFor sampleDoc unknownToolCall = .ok none ∧
    assistantToolCalls (chatPOST chatEnvUnknownTool).writes =
      [some chatEnvUnknownTool.firstResponse.tool_calls] :=
  unknown_tool_call_recorded_not_executed chatEnvUnknownTool "d1" sampleDoc
    unknownToolCall rfl rfl (by decide) (List.mem_cons_self _ _)
    (Or.inr ⟨by decide, by decide⟩)

/-! # Claim C10 -/

/-- Claim C10: search_document_text with a missing or empty query argument
(args.query reads as undefined, null or the empty string — which excludes
null args, where the read itself throws) lowercases to the empty query,
which every line contains, so it answers with the first min(5, number of
lines) lines joined by newlines; the no-match marker branch is taken only
when the stored text is the empty string. -/
theorem search_empty_query_first_lines (docText : Str) (args : JVal)
    (hq : args.getProp "query" = .ok none ∨
      args.getProp "query" = .ok (some .null) ∨
      args.getProp "query" = .ok (some (.str [])))
    (ht : docText ≠ []) :
    queryOfArgs args = .ok [] ∧
    searchDocumentText docText [] = joinNl ((splitNl docText).take 5) ∧
    joinNl ((splitNl docText).take 5) ≠ [] ∧
    searchDocumentText [] [] = "No matching text found.".data := by
  refine ⟨?_, ?_, joinNl_take_splitNl_ne_nil docText ht, rfl⟩
  · rcases hq with h | h | h <;> simp [queryOfArgs, h]
  · have hfil : (splitNl docText).filter
        (fun line => containsSub (line.map Char.toLower) []) = splitNl docText :=
      List.filter_eq_self.mpr (fun a _ => containsSub_nil _)
    simp only [searchDocumentText]
    rw [hfil, if_neg (joinNl_take_splitNl_ne_nil docText ht)]

/-- Witness: over the two-line sample text, the empty query returns both
lines joined, and the marker appears only for the empty text. -/
theorem search_empty_query_first_lines_witness :
    queryOfArgs (JVal.obj []) = .ok [] ∧
    searchDocumentText ("hello\nworld".data) [] =
      joinNl ((splitNl ("hello\nworld".data)).take 5) ∧
    joinNl ((splitNl ("hello\nworld".data)).take 5) ≠ [] ∧
    searchDocumentText [] [] = "No matching text found.".data :=
  search_empty_query_first_lines ("hello\nworld".data) (.obj [])
    (Or.inl rfl) (by decide)

end DocAnalysis
